import Mathlib

/-!
Shallow embedding of the `puffotter` python library, covering:
* `puffotter/units.py` (`byte_string_to_byte_count`, `human_readable_bytes`)
* `puffotter/os.py` (`listdir`)
* `puffotter/flask/routes/decorators.py` (`api`)
* `puffotter/flask/initialize.py` (`load_user_from_request`)
* `puffotter/flask/wsgi.py` (`__start_background_tasks`)

Python floats are modelled as exact fractions (the inputs appearing in the
claims are all exactly representable as doubles, where the two agree);
`float()` literals `inf`/`nan` and underscore digit separators are not
modelled.  Python strings are modelled as Lean strings with ASCII case
mapping.
-/

deriving instance DecidableEq for Except

namespace Puffotter

/-- The two python exception kinds that `byte_string_to_byte_count` can raise. -/
inductive PyErr where
  | valueError
  | indexError
deriving DecidableEq, Repr

/-- ASCII lower-casing of a single character, modelling python `str.lower`
restricted to ASCII input. -/
def pyLowerChar (c : Char) : Char :=
  if 65 ≤ c.toNat ∧ c.toNat ≤ 90 then Char.ofNat (c.toNat + 32) else c

/-- Model of python `str.lower` (ASCII). -/
def pyLower (s : String) : String :=
  String.mk (s.data.map pyLowerChar)

/-- Worker for `pyReplace`, structurally recursive on `fuel`.  Every step
consumes at least one character of `s`, so with `fuel = s.length` the
fuel-exhaustion branch (where `s` is already `[]`) is unreachable. -/
def pyReplaceFuel (fuel : Nat) (s old new : List Char) : List Char :=
  match fuel, s with
  | 0, s => s
  | _, [] => []
  | f + 1, c :: rest =>
    if old ≠ [] ∧ old.isPrefixOf (c :: rest) then
      new ++ pyReplaceFuel f (rest.drop (old.length - 1)) old new
    else
      c :: pyReplaceFuel f rest old new

/-- Model of python `str.replace(old, new)` for a nonempty `old`: replaces all
non-overlapping occurrences, scanning left to right. -/
def pyReplace (s old new : List Char) : List Char :=
  pyReplaceFuel s.length s old new

/-- Model of python `str.replace(old, new, 1)` for a nonempty `old`: replaces
only the first occurrence. -/
def pyReplaceOnce (s old new : List Char) : List Char :=
  match s with
  | [] => []
  | c :: rest =>
    if old ≠ [] ∧ old.isPrefixOf (c :: rest) then
      new ++ rest.drop (old.length - 1)
    else
      c :: pyReplaceOnce rest old new

/-- ASCII whitespace, as stripped by python `int()` / `float()`. -/
def isPySpace (c : Char) : Bool :=
  c == ' ' || c == '\t' || c == '\n' || c == '\r'

/-- Strip leading and trailing whitespace. -/
def pyStrip (l : List Char) : List Char :=
  ((l.dropWhile isPySpace).reverse.dropWhile isPySpace).reverse

/-- Value of a list of decimal digit characters. -/
def digitsToNat (l : List Char) : Nat :=
  l.foldl (fun acc c => acc * 10 + (c.toNat - 48)) 0

/-- A nonempty all-digit sequence, or `none`. -/
def digitsOpt (l : List Char) : Option Nat :=
  if l ≠ [] ∧ l.all Char.isDigit then some (digitsToNat l) else none

/-- Model of python `int(str)`: optional surrounding whitespace, optional
sign, then a nonempty digit sequence (underscore separators not modelled). -/
def pyIntParse (l : List Char) : Option Int :=
  match pyStrip l with
  | [] => none
  | c :: rest =>
    if c == '+' then (digitsOpt rest).map (fun n => (n : Int))
    else if c == '-' then (digitsOpt rest).map (fun n => -(n : Int))
    else (digitsOpt (c :: rest)).map (fun n => (n : Int))

/-- An exact fraction `num / den` with `den > 0` by construction, the model
of a python float value.  It is never normalized, so every operation is
plain integer arithmetic and reduces in the kernel. -/
structure Dec where
  num : Int
  den : Int
deriving DecidableEq, Repr

/-- Multiply a fraction by a natural number. -/
def Dec.mulNat (d : Dec) (m : Nat) : Dec := ⟨d.num * (m : Int), d.den⟩

/-- Divide a fraction by a natural number. -/
def Dec.divNat (d : Dec) (m : Nat) : Dec := ⟨d.num, d.den * (m : Int)⟩

/-- Model of python `int(float)`: truncation toward zero
(`Int.tdiv` rounds toward zero, and `den > 0`). -/
def pytrunc (d : Dec) : Int := Int.tdiv d.num d.den

/-- Mantissa of a float literal: `digits [. [digits]]` or `. digits`,
as the exact fraction over the obvious power of ten. -/
def parseMantissa (l : List Char) : Option Dec :=
  let ip := l.takeWhile Char.isDigit
  match l.drop ip.length with
  | [] =>
    if ip = [] then none else some ⟨(digitsToNat ip : Nat), 1⟩
  | '.' :: fr =>
    if fr.all Char.isDigit ∧ (ip ≠ [] ∨ fr ≠ []) then
      some ⟨(digitsToNat ip * 10 ^ fr.length + digitsToNat fr : Nat),
        ((10 : Nat) ^ fr.length : Nat)⟩
    else none
  | _ => none

/-- Exponent part of a float literal (after the `e`): optional sign, digits. -/
def parseExp (l : List Char) : Option Int :=
  match l with
  | '+' :: ds => (digitsOpt ds).map (fun n => (n : Int))
  | '-' :: ds => (digitsOpt ds).map (fun n => -(n : Int))
  | ds => (digitsOpt ds).map (fun n => (n : Int))

/-- Scale a fraction by `10 ^ k` for an integer exponent `k`. -/
def Dec.scale10 (d : Dec) (k : Int) : Dec :=
  if 0 ≤ k then ⟨d.num * (10 : Int) ^ k.toNat, d.den⟩
  else ⟨d.num, d.den * (10 : Int) ^ (-k).toNat⟩

/-- Model of python `float(str)` as an exact fraction: optional whitespace
and sign, decimal mantissa, optional decimal exponent; `inf`/`nan` and
underscore separators are not modelled. -/
def pyFloatParse (l : List Char) : Option Dec :=
  let t := pyStrip l
  let sgn : Int × List Char :=
    match t with
    | '+' :: r => (1, r)
    | '-' :: r => (-1, r)
    | r => (1, r)
  let mantPart := sgn.2.takeWhile (fun c => !(c == 'e' || c == 'E'))
  match parseMantissa mantPart with
  | none => none
  | some m =>
    match sgn.2.drop mantPart.length with
    | [] => some ⟨sgn.1 * m.num, m.den⟩
    | _ :: er =>
      match parseExp er with
      | none => none
      | some k => some (Dec.scale10 ⟨sgn.1 * m.num, m.den⟩ k)

/-- The `units` dict of `byte_string_to_byte_count`, in insertion order. -/
def unitsAssoc : List (Char × Nat) :=
  [('k', 1000), ('m', 1000000), ('g', 1000000000), ('t', 1000000000000),
   ('p', 1000000000000000), ('e', 1000000000000000000)]

/-- The suffix-stripping loop of `byte_string_to_byte_count`: for each unit in
dict order, replace `unit + "b/s"` then `unit + "b"` by `unit`. -/
def stripUnitSuffixes (s : List Char) : List Char :=
  unitsAssoc.foldl (fun acc u =>
    pyReplace (pyReplace acc [u.1, 'b', '/', 's'] [u.1]) [u.1, 'b'] [u.1]) s

/-- Embedding of `byte_string_to_byte_count` from `puffotter/units.py`.
Raised python exceptions are modelled with `Except`: the bare `ValueError`
raises, the `ValueError` from a failed `int()`/`float()` conversion, and the
`ValueError` re-raised on `KeyError` all map to `PyErr.valueError`; the
`IndexError` from `byte_string[-1]` on an empty string maps to
`PyErr.indexError`. -/
def byte_string_to_byte_count (s : String) : Except PyErr Int :=
  let bs := stripUnitSuffixes (pyLower s).data
  match bs.getLast? with
  | none => .error .indexError
  | some mc =>
    if mc.isDigit then
      if bs.contains '.' then .error .valueError
      else
        match pyIntParse bs with
        | some n => .ok n
        | none => .error .valueError
    else
      match unitsAssoc.lookup mc with
      | none => .error .valueError
      | some mult =>
        match pyFloatParse bs.dropLast with
        | none => .error .valueError
        | some q => .ok (pytrunc (q.mulNat mult))

/-- The exact condition under which `byte_string_to_byte_count` raises
`ValueError`, written from the amended description: after lower-casing and
suffix stripping, either the string ends in a digit and contains a `'.'` or
fails integer parsing, or it ends in a character that is no recognized unit
letter, or it ends in a recognized unit letter but the preceding portion
fails float parsing. -/
def bstbcRaisesValueError (s : String) : Bool :=
  let bs := stripUnitSuffixes (pyLower s).data
  match bs.getLast? with
  | none => false
  | some mc =>
    if mc.isDigit then bs.contains '.' || (pyIntParse bs).isNone
    else
      match unitsAssoc.lookup mc with
      | none => true
      | some _ => (pyFloatParse bs.dropLast).isNone

/-- The unit list of `human_readable_bytes`. -/
def hrUnits : List String := ["K", "M", "G", "T", "P", "E", "Z", "Y"]

/-- The `while True` division loop of `human_readable_bytes`.  The loop runs
at most `hrUnits.length` iterations (the index check stops it), so fuel
`hrUnits.length` makes the fuel-exhaustion branch unreachable. -/
def hrLoop (base : Nat) (fuel : Nat) (b : Dec) (idx : Int) : Dec × Int :=
  match fuel with
  | 0 => (b, idx)
  | f + 1 =>
    let b2 := b.divNat base
    let i2 := idx + 1
    if pytrunc b2 < (base : Int) ∨ i2 = (hrUnits.length : Int) - 1 then (b2, i2)
    else hrLoop base f b2 i2

/-- Worker for `natToChars`, structurally recursive on `fuel`; a number has
at most `n + 1` decimal digits, so `natToChars` never exhausts its fuel. -/
def natToCharsFuel (fuel n : Nat) : List Char :=
  match fuel with
  | 0 => []
  | f + 1 =>
    if n < 10 then [Char.ofNat (48 + n)]
    else natToCharsFuel f (n / 10) ++ [Char.ofNat (48 + n % 10)]

/-- Decimal digit characters of a natural number. -/
def natToChars (n : Nat) : List Char :=
  natToCharsFuel (n + 1) n

/-- Exactly three decimal digit characters (used for the fractional part). -/
def pad3 (n : Nat) : List Char :=
  [Char.ofNat (48 + (n / 100) % 10), Char.ofNat (48 + (n / 10) % 10),
   Char.ofNat (48 + n % 10)]

/-- The value `%.3f` renders, times 1000: the nonnegative input rounded to
three decimal places, half to even.  `frac` is `scaled - fl` as a fraction
over `scaled.den`, so the comparisons with `1/2` are cross-multiplied. -/
def round3 (a : Dec) : Int :=
  let scaled := a.mulNat 1000
  let fl := pytrunc scaled
  let fracNum := scaled.num - fl * scaled.den
  if 2 * fracNum > scaled.den then fl + 1
  else if 2 * fracNum < scaled.den then fl
  else if fl % 2 = 0 then fl else fl + 1

/-- Digits of `%.3f` for the (already rounded and scaled) value `rn`:
integer part, point, exactly three fractional digits. -/
def fmt3Digits (rn : Nat) : List Char :=
  natToChars (rn / 1000) ++ '.' :: pad3 (rn % 1000)

/-- Model of python `"%.3f" % q`: optional sign, then the rounded digits
(`q.den > 0` by construction, so `q < 0` is `q.num < 0`). -/
def fmt3 (q : Dec) : List Char :=
  (if q.num < 0 then ['-'] else []) ++
    fmt3Digits (round3 (if q.num < 0 then ⟨-q.num, q.den⟩ else q)).toNat

/-- The string with its trailing `'0'` characters dropped. -/
def dropTrailingZeros (l : List Char) : List Char :=
  (l.reverse.dropWhile (· == '0')).reverse

/-- The trailing-zero trimming of `human_readable_bytes`: drop trailing `'0'`
characters, then a dangling `'.'`. -/
def trimZeros (l : List Char) : List Char :=
  if (dropTrailingZeros l).getLast? = some '.' then (dropTrailingZeros l).dropLast
  else dropTrailingZeros l

/-- The `(_bytes, unit_index)` pair after the division loop of
`human_readable_bytes`. -/
def hrState (bytecount : Int) (base_1024 : Bool) : Dec × Int :=
  hrLoop (if base_1024 then 1024 else 1000) hrUnits.length ⟨bytecount, 1⟩ (-1)

/-- The `bytestring` variable of `human_readable_bytes` after optional
trimming. -/
def hrTrimmed (bytecount : Int) (base_1024 remove_trailing_zeroes : Bool) :
    List Char :=
  if remove_trailing_zeroes then trimZeros (fmt3 (hrState bytecount base_1024).1)
  else fmt3 (hrState bytecount base_1024).1

/-- Everything of `human_readable_bytes` before the `i`/`B` suffix: the
formatted (optionally trimmed) number followed by the selected unit letter. -/
def hrBody (bytecount : Int) (base_1024 : Bool)
    (remove_trailing_zeroes : Bool) : String :=
  String.mk (hrTrimmed bytecount base_1024 remove_trailing_zeroes) ++
    hrUnits.getD (hrState bytecount base_1024).2.toNat ""

/-- Embedding of `human_readable_bytes` from `puffotter/units.py`:
`bytestring + units[unit_index] + i + "B"` with `i = "i"` iff `base_1024`. -/
def human_readable_bytes (bytecount : Int) (base_1024 : Bool)
    (remove_trailing_zeroes : Bool) : String :=
  hrBody bytecount base_1024 remove_trailing_zeroes ++
    (if base_1024 then "i" else "") ++ "B"

/-! ### `puffotter/os.py` -/

/-- Lexicographic code-point comparison of character lists, the order python
uses to compare strings. -/
def charListLe : List Char → List Char → Bool
  | [], _ => true
  | _ :: _, [] => false
  | a :: as, b :: bs =>
    if a.toNat = b.toNat then charListLe as bs
    else decide (a.toNat < b.toNat)

/-- Python string comparison `a <= b` (code-point lexicographic), under
which `sorted` sorts. -/
def strLeB (a b : String) : Bool := charListLe a.data b.data

/-- Model of python `str.startswith`. -/
def strStartsWith (s pre : String) : Bool := pre.data.isPrefixOf s.data

/-- Model of python `str.endswith`. -/
def strEndsWith (s suf : String) : Bool := suf.data.isSuffixOf s.data

/-- Abstract directory state for `listdir`: the names returned by
`os.listdir(path)` plus the `os.path.isfile` / `os.path.isdir` predicates on
full paths. -/
structure DirContext where
  entries : List String
  isFile : String → Bool
  isDir : String → Bool

/-- Model of `os.path.join(path, child)` (posix): an absolute `child` wins;
an empty or slash-terminated `path` is concatenated directly; otherwise a
`/` separator is inserted. -/
def pathJoin (path child : String) : String :=
  if strStartsWith child "/" then child
  else if path = "" ∨ strEndsWith path "/" then path ++ child
  else path ++ "/" ++ child

/-- One iteration of the `listdir` loop body: the `continue` branches return
`none`, otherwise the `(child, child_path)` pair is appended. -/
def listdirKeep (ctx : DirContext) (path : String)
    (no_files no_dirs no_dot : Bool) (child : String) :
    Option (String × String) :=
  let child_path := pathJoin path child
  if no_files && ctx.isFile child_path then none
  else if no_dirs && ctx.isDir child_path then none
  else if no_dot && strStartsWith child "." then none
  else some (child, child_path)

/-- Embedding of `listdir` from `puffotter/os.py`: iterate over the sorted
directory entries, filtering per the flags. -/
def listdir (ctx : DirContext) (path : String)
    (no_files no_dirs no_dot : Bool) : List (String × String) :=
  (List.insertionSort (fun a b => strLeB a b = true) ctx.entries).filterMap
    (listdirKeep ctx path no_files no_dirs no_dot)

/-- The `listdir` loop body as a plain predicate: a child is kept when none
of the three `continue` conditions holds. -/
def listdirPred (ctx : DirContext) (path : String)
    (no_files no_dirs no_dot : Bool) (child : String) : Bool :=
  !(no_files && ctx.isFile (pathJoin path child)) &&
    (!(no_dirs && ctx.isDir (pathJoin path child)) &&
      !(no_dot && strStartsWith child "."))

/-- A small concrete directory: one dot-entry, one file, two directories. -/
def sampleDir : DirContext where
  entries := [".git", "b", "a", "f.txt"]
  isFile := fun p => p == "/x/f.txt"
  isDir := fun p => !(p == "/x/f.txt")

/-! ### `puffotter/flask/routes/decorators.py` -/

/-- Python exception kinds relevant to the `api` decorator: the three
whitelisted builtins, `ApiException` (with its `reason` and `status_code`),
and any other exception (identified by name). -/
inductive PyExc where
  | keyError
  | typeError
  | valueError
  | apiException (reason : String) (status_code : Nat)
  | other (name : String)
deriving DecidableEq, Repr

/-- Outcome of calling the wrapped handler: a return value or a raised
exception. -/
inductive HandlerOutcome (α : Type) where
  | ok (val : α)
  | raises (e : PyExc)
deriving DecidableEq, Repr

/-- The request facts the `api` decorator inspects. -/
structure ApiRequest where
  /-- `request.method` -/
  method : String
  /-- `request.content_type`; `none` when the request carries no
  Content-Type header (python `None`), in which case the wrapper's
  `request.content_type.startswith(...)` raises `AttributeError`. -/
  contentType : Option String
  /-- `request.is_json` -/
  isJson : Bool
  /-- `isinstance(request.get_json(silent=True), dict)` -/
  jsonIsDict : Bool
deriving DecidableEq, Repr

/-- The decorator's `is_json` conjunction: the request body is a JSON
object.  Only meaningful when a Content-Type header is present; with
`contentType = none` the wrapper raises before this value matters. -/
def isJsonBody (req : ApiRequest) : Bool :=
  (match req.contentType with
   | some ct => strStartsWith ct "application/json"
   | none => false) &&
    req.isJson && req.jsonIsDict

/-- The JSON envelope and HTTP status code built by the `api` decorator. -/
structure ApiResponse (α : Type) where
  code : Nat
  status : String
  reason : Option String
  data : Option α
deriving DecidableEq, Repr

/-- Embedding of the `api` decorator's wrapper from
`puffotter/flask/routes/decorators.py`.  The returned `Bool` records whether
the wrapped handler was invoked; a non-whitelisted exception propagates as
`Except.error`.  When the request has no Content-Type header,
`request.content_type` is `None` and `None.startswith` raises
`AttributeError`, which is not in the `except` tuple and propagates
(modelled as `PyExc.other "AttributeError"`).  The
`ApiException("Not in JSON format", 400)` raised by the JSON-body gate is
caught by the decorator's own `except` clause, yielding the 400 error
envelope without invoking the handler. -/
def apiWrapper {α : Type} (req : ApiRequest) (call : HandlerOutcome α) :
    Except PyExc (ApiResponse α × Bool) :=
  match req.contentType with
  | none => .error (.other "AttributeError")
  | some _ =>
  if (req.method == "POST" || req.method == "PUT" || req.method == "DELETE")
      && !isJsonBody req then
    .ok ({ code := 400, status := "error",
           reason := some "Not in JSON format", data := none }, false)
  else
    match call with
    | .ok v =>
      .ok ({ code := 200, status := "ok", reason := none, data := some v },
        true)
    | .raises .keyError =>
      .ok ({ code := 400, status := "error",
             reason := some "Bad Request: KeyError", data := none }, true)
    | .raises .typeError =>
      .ok ({ code := 400, status := "error",
             reason := some "Bad Request: TypeError", data := none }, true)
    | .raises .valueError =>
      .ok ({ code := 400, status := "error",
             reason := some "Bad Request: ValueError", data := none }, true)
    | .raises (.apiException r c) =>
      .ok ({ code := c, status := "error", reason := some r, data := none },
        true)
    | .raises (.other n) => .error (.other n)

/-! ### `puffotter/flask/initialize.py`, `load_user_from_request` -/

/-- External collaborators of `load_user_from_request`, abstracted:
`base64.b64decode` (`none` models a raised `binascii.Error`/`TypeError`,
which the function catches), `bytes.decode("utf-8")` (`none` models a raised
`UnicodeDecodeError`, which is *not* caught), the `ApiKey.verify_key` and
`ApiKey.has_expired` methods (keyed by the record's id), and
`User.query.get`. -/
structure AuthEnv where
  b64decode : String → Option (List Nat)
  utf8decode : List Nat → Option String
  verifyKey : String → String → Bool
  hasExpired : String → Bool
  loadUser : Nat → Option Nat

/-- A stored `ApiKey` row: primary key and owning user id. -/
structure ApiKeyRec where
  dbId : String
  userId : Nat
deriving DecidableEq, Repr

/-- The uncaught exception `load_user_from_request` can raise. -/
inductive AuthErr where
  | unicodeDecodeError
deriving DecidableEq, Repr

/-- Model of `api_key.split(":", 1)[0]`: everything before the first `':'`
(the whole string if there is none). -/
def keyIdOf (api_key : String) : String :=
  String.mk (api_key.data.takeWhile (fun c => !(c == ':')))

/-- Embedding of `load_user_from_request` from
`puffotter/flask/initialize.py`.  The state is the list of stored API key
rows; the result pairs the loaded user (by id) with the possibly-updated
state (an expired key is deleted before returning `none`). -/
def load_user_from_request (env : AuthEnv) (keys : List ApiKeyRec)
    (authHeader : Option String) :
    Except AuthErr (Option Nat × List ApiKeyRec) :=
  match authHeader with
  | none => .ok (none, keys)
  | some hdr =>
    let raw := String.mk (pyReplaceOnce hdr.data "Basic ".data [])
    match env.b64decode raw with
    | none => .ok (none, keys)
    | some bytes =>
      match env.utf8decode bytes with
      | none => .error .unicodeDecodeError
      | some api_key =>
        let keyId := keyIdOf api_key
        match keys.find? (fun r => r.dbId == keyId) with
        | none => .ok (none, keys)
        | some rec =>
          if !(env.verifyKey rec.dbId api_key) then .ok (none, keys)
          else if env.hasExpired rec.dbId then
            .ok (none, keys.eraseP (fun r => r.dbId == rec.dbId))
          else .ok (env.loadUser rec.userId, keys)

/-- Concrete environment for the UTF-8 failure path: `"/w=="` is valid
base64 for the single byte `0xFF`, which is not valid UTF-8, so
`b64decode` succeeds and `utf8decode` fails. -/
def utf8FailEnv : AuthEnv where
  b64decode := fun s => if s = "/w==" then some [255] else none
  utf8decode := fun bytes => if bytes = [255] then none else some ""
  verifyKey := fun _ _ => false
  hasExpired := fun _ => false
  loadUser := fun _ => none

/-- Concrete environment in which decoding succeeds with key string
`"k1:sec"`, verification succeeds and the key has expired. -/
def expiredEnv : AuthEnv where
  b64decode := fun _ => some [107, 49, 58, 115, 101, 99]
  utf8decode := fun _ => some "k1:sec"
  verifyKey := fun _ _ => true
  hasExpired := fun _ => true
  loadUser := fun n => some n

/-- Concrete environment in which decoding succeeds with key string
`"k1:sec"` but verification fails. -/
def badVerifyEnv : AuthEnv where
  b64decode := fun _ => some [107, 49, 58, 115, 101, 99]
  utf8decode := fun _ => some "k1:sec"
  verifyKey := fun _ _ => false
  hasExpired := fun _ => false
  loadUser := fun n => some n

/-- Concrete environment in which base64 decoding fails. -/
def badB64Env : AuthEnv where
  b64decode := fun _ => none
  utf8decode := fun _ => some ""
  verifyKey := fun _ _ => false
  hasExpired := fun _ => false
  loadUser := fun _ => none

/-- A one-row key table with id `"k1"` owned by user `7`. -/
def oneKey : List ApiKeyRec := [⟨"k1", 7⟩]

/-! ### `puffotter/flask/wsgi.py`, `__start_background_tasks` -/

/-- Observable events of one background-task thread. -/
inductive TaskEvent where
  | invoke
  | log (msg : String)
  | sleep (delay : Nat)
deriving DecidableEq, Repr

/-- The log line produced on a caught exception (the f-string in
`run_task`). -/
def taskLogMsg (name err : String) : String :=
  "Encountered exception in background task " ++ name ++ ": " ++ err

/-- Events of a single iteration of the `while True` loop in `run_task`:
invoke the callback, log if it raised, then sleep for the delay. -/
def iterEvents (name : String) (delay : Nat)
    (outcome : Except String Unit) : List TaskEvent :=
  match outcome with
  | .ok _ => [.invoke, .sleep delay]
  | .error e => [.invoke, .log (taskLogMsg name e), .sleep delay]

/-- Trace of the first `n` iterations of a background task's loop, where
`outcomes i` is what the callback does on its `i`-th invocation. -/
def runTaskTrace (name : String) (delay : Nat)
    (outcomes : Nat → Except String Unit) : Nat → List TaskEvent
  | 0 => []
  | n + 1 =>
    runTaskTrace name delay outcomes n ++ iterEvents name delay (outcomes n)

/-- Number of callback invocations in a trace. -/
def countInvokes (l : List TaskEvent) : Nat :=
  l.countP (fun e => match e with | .invoke => true | _ => false)

/-! ## Helper lemmas -/

theorem digit_char_ne_i (d : Nat) (h : d < 10) : Char.ofNat (48 + d) ≠ 'i' := by
  interval_cases d <;> decide

theorem natToCharsFuel_ne_i (fuel n : Nat) : 'i' ∉ natToCharsFuel fuel n := by
  induction fuel generalizing n with
  | zero => exact List.not_mem_nil _
  | succ f ih =>
    rw [natToCharsFuel]
    split
    · next h =>
      intro hm
      rw [List.mem_singleton] at hm
      exact digit_char_ne_i n h hm.symm
    · intro hm
      rw [List.mem_append] at hm
      rcases hm with hm | hm
      · exact ih (n / 10) hm
      · rw [List.mem_singleton] at hm
        exact digit_char_ne_i (n % 10) (Nat.mod_lt _ (by omega)) hm.symm

theorem natToChars_ne_i (n : Nat) : 'i' ∉ natToChars n :=
  natToCharsFuel_ne_i (n + 1) n

theorem pad3_ne_i (n : Nat) : 'i' ∉ pad3 n := by
  intro hm
  unfold pad3 at hm
  rcases List.mem_cons.mp hm with h | hm
  · exact digit_char_ne_i _ (Nat.mod_lt _ (by omega)) h.symm
  rcases List.mem_cons.mp hm with h | hm
  · exact digit_char_ne_i _ (Nat.mod_lt _ (by omega)) h.symm
  rcases List.mem_cons.mp hm with h | hm
  · exact digit_char_ne_i _ (Nat.mod_lt _ (by omega)) h.symm
  · exact (List.not_mem_nil _ hm)

theorem fmt3Digits_ne_i (rn : Nat) : 'i' ∉ fmt3Digits rn := by
  intro hm
  unfold fmt3Digits at hm
  rcases List.mem_append.mp hm with hm | hm
  · exact natToChars_ne_i _ hm
  rcases List.mem_cons.mp hm with h | hm
  · exact absurd h (by decide)
  · exact pad3_ne_i _ hm

theorem fmt3_ne_i (q : Dec) : 'i' ∉ fmt3 q := by
  intro hm
  unfold fmt3 at hm
  rcases List.mem_append.mp hm with hm | hm
  · split at hm
    · rw [List.mem_singleton] at hm
      exact absurd hm (by decide)
    · exact List.not_mem_nil _ hm
  · exact fmt3Digits_ne_i _ hm

theorem trimZeros_sublist (l : List Char) : (trimZeros l).Sublist l := by
  have h1 : (dropTrailingZeros l).Sublist l := by
    have h := (List.dropWhile_sublist (l := l.reverse) (· == '0')).reverse
    simpa [dropTrailingZeros] using h
  unfold trimZeros
  split
  · exact (List.dropLast_sublist _).trans h1
  · exact h1

theorem hrUnits_getD_ne_i (k : Nat) : 'i' ∉ (hrUnits.getD k "").data := by
  by_cases hk : k < hrUnits.length
  · have hk8 : k < 8 := by simpa [hrUnits] using hk
    interval_cases k <;> decide
  · rw [List.getD_eq_default _ _ (Nat.le_of_not_lt hk)]
    decide

theorem hrBody_ne_i (n : Int) (b t : Bool) : 'i' ∉ (hrBody n b t).data := by
  intro hm
  unfold hrBody at hm
  rw [String.data_append] at hm
  rcases List.mem_append.mp hm with hm | hm
  · have hm' : 'i' ∈ hrTrimmed n b t := hm
    unfold hrTrimmed at hm'
    split at hm'
    · exact fmt3_ne_i _ ((trimZeros_sublist _).subset hm')
    · exact fmt3_ne_i _ hm'
  · exact hrUnits_getD_ne_i _ hm

theorem charListLe_total (a b : List Char) :
    charListLe a b = true ∨ charListLe b a = true := by
  induction a generalizing b with
  | nil => left; rfl
  | cons x as ih =>
    cases b with
    | nil => right; rfl
    | cons y bs =>
      by_cases h : x.toNat = y.toNat
      · have h' : y.toNat = x.toNat := h.symm
        rcases ih bs with hl | hl
        · left; simp [charListLe, h, hl]
        · right; simp [charListLe, h', hl]
      · have h' : ¬ y.toNat = x.toNat := fun hh => h hh.symm
        rcases Nat.lt_or_ge x.toNat y.toNat with hlt | hge
        · left; simp [charListLe, h, hlt]
        · have hgt : y.toNat < x.toNat := by omega
          right; simp [charListLe, h', hgt]

theorem charListLe_trans (a b c : List Char) (hab : charListLe a b = true)
    (hbc : charListLe b c = true) : charListLe a c = true := by
  induction a generalizing b c with
  | nil => rfl
  | cons x as ih =>
    cases b with
    | nil => simp [charListLe] at hab
    | cons y bs =>
      cases c with
      | nil => simp [charListLe] at hbc
      | cons z cs =>
        simp only [charListLe] at hab hbc ⊢
        by_cases hxy : x.toNat = y.toNat
        · rw [if_pos hxy] at hab
          by_cases hyz : y.toNat = z.toNat
          · rw [if_pos hyz] at hbc
            rw [if_pos (hxy.trans hyz)]
            exact ih bs cs hab hbc
          · rw [if_neg hyz] at hbc
            have hlt : y.toNat < z.toNat := of_decide_eq_true hbc
            rw [if_neg (by omega)]
            exact decide_eq_true (by omega)
        · rw [if_neg hxy] at hab
          have hlt : x.toNat < y.toNat := of_decide_eq_true hab
          by_cases hyz : y.toNat = z.toNat
          · rw [if_neg (by omega)]
            exact decide_eq_true (by omega)
          · rw [if_neg hyz] at hbc
            have hlt2 : y.toNat < z.toNat := of_decide_eq_true hbc
            rw [if_neg (by omega)]
            exact decide_eq_true (by omega)

instance : IsTotal String (fun a b => strLeB a b = true) :=
  ⟨fun a b => charListLe_total a.data b.data⟩

instance : IsTrans String (fun a b => strLeB a b = true) :=
  ⟨fun a b c => charListLe_trans a.data b.data c.data⟩

/-! ## Claim theorems -/

/-- C4: `byte_string_to_byte_count` is exact on the spec's examples
("1K", "1KB", "1Kb/s" ↦ 1000; "500K" ↦ 500000; "2.5M" ↦ 2500000;
"10GB" ↦ 10000000000; "30kb/s" ↦ 30000), and parsing is case-insensitive:
two inputs with the same lower-casing parse identically. -/
theorem byte_parser_examples :
    byte_string_to_byte_count "1K" = .ok 1000 ∧
    byte_string_to_byte_count "1KB" = .ok 1000 ∧
    byte_string_to_byte_count "1Kb/s" = .ok 1000 ∧
    byte_string_to_byte_count "500K" = .ok 500000 ∧
    byte_string_to_byte_count "2.5M" = .ok 2500000 ∧
    byte_string_to_byte_count "10GB" = .ok 10000000000 ∧
    byte_string_to_byte_count "30kb/s" = .ok 30000 ∧
    ∀ s t : String, pyLower s = pyLower t →
      byte_string_to_byte_count s = byte_string_to_byte_count t := by
  refine ⟨by decide, by decide, by decide, by decide, by decide, by decide,
    by decide, fun s t h => ?_⟩
  unfold byte_string_to_byte_count
  rw [h]

/-- Witness for `byte_parser_examples`: the case-insensitivity conjunct
applied to the concrete inputs "1K" and "1k". -/
theorem byte_parser_examples_witness :
    byte_string_to_byte_count "1K" = byte_string_to_byte_count "1k" :=
  byte_parser_examples.2.2.2.2.2.2.2 "1K" "1k" (by decide)

/-- C10: on the empty string the parser fails with `IndexError` (the
unguarded `byte_string[-1]` access), not the `ValueError` raised for other
invalid inputs. -/
theorem byte_parser_empty_raises_index_error :
    byte_string_to_byte_count "" = .error PyErr.indexError ∧
    PyErr.indexError ≠ PyErr.valueError := by decide

/-- C5 counterexample: for "xk" the trailing character after suffix
stripping is the recognized unit letter 'k' and the string is not a bare
number containing a fractional point, yet the parser raises `ValueError`
(the numeric portion "x" fails float conversion), refuting the claimed
"exactly when". -/
theorem byte_parser_error_cex :
    byte_string_to_byte_count "xk" = .error PyErr.valueError ∧
    stripUnitSuffixes (pyLower "xk").data = ['x', 'k'] ∧
    (unitsAssoc.lookup 'k').isSome = true ∧
    Char.isDigit 'k' = false ∧
    List.contains ['x', 'k'] '.' = false := by decide

/-- C5 amended: the parser raises `ValueError` exactly when, after
lower-casing and suffix stripping, the string ends in a digit and contains a
'.' or fails integer parsing, or ends in an unrecognized non-digit
character, or ends in a recognized unit letter whose numeric portion fails
float parsing; in particular it raises on "12.3" and "abc" and returns 123
for "123". -/
theorem byte_parser_error_charact (s : String) :
    (byte_string_to_byte_count s = .error PyErr.valueError ↔
      bstbcRaisesValueError s = true) ∧
    byte_string_to_byte_count "12.3" = .error PyErr.valueError ∧
    byte_string_to_byte_count "abc" = .error PyErr.valueError ∧
    byte_string_to_byte_count "123" = .ok 123 := by
  refine ⟨?_, by decide, by decide, by decide⟩
  unfold byte_string_to_byte_count bstbcRaisesValueError
  cases hl : (stripUnitSuffixes (pyLower s).data).getLast? with
  | none => simp [hl]
  | some mc =>
    by_cases hd : mc.isDigit
    · by_cases hc : '.' ∈ stripUnitSuffixes (pyLower s).data
      · simp [hl, hd, hc, List.contains, List.elem_iff]
      · cases hi : pyIntParse (stripUnitSuffixes (pyLower s).data) <;>
          simp [hl, hd, hc, hi, List.contains, List.elem_iff]
    · cases hu : unitsAssoc.lookup mc with
      | none => simp [hl, hd, hu]
      | some mult =>
        cases hf : pyFloatParse (stripUnitSuffixes (pyLower s).data).dropLast <;>
          simp [hl, hd, hu, hf]

/-- C1 counterexample: with `base_1024 = false` the formatter returns "1MB"
for 1000000, not "1M" as the claim states. -/
theorem human_readable_bytes_cex :
    human_readable_bytes 1000000 false true = "1MB" ∧
    ("1MB" : String) ≠ "1M" := by decide

/-- C1 amended: `human_readable_bytes 1000000` with base 1000 is "1MB" (the
"B" is always appended), `human_readable_bytes 1048576` with base 1024 is
"1MiB", and in general the output is the formatted number and unit letter
followed by "i" before "B" exactly when `base_1024` is set (the part before
the suffix never contains an 'i'). -/
theorem human_readable_bytes_spec (n : Int) (b t : Bool) :
    human_readable_bytes 1000000 false true = "1MB" ∧
    human_readable_bytes 1048576 true true = "1MiB" ∧
    human_readable_bytes n b t =
      hrBody n b t ++ (if b then "i" else "") ++ "B" ∧
    'i' ∉ (hrBody n b t).data :=
  ⟨by decide, by decide, rfl, hrBody_ne_i n b t⟩

/-- Helper: the loop body returns `some` exactly when the kept-predicate
holds, pairing the child with its joined path. -/
theorem listdirKeep_eq (ctx : DirContext) (path : String)
    (nf nd ndot : Bool) (c : String) :
    listdirKeep ctx path nf nd ndot c =
      if listdirPred ctx path nf nd ndot c then some (c, pathJoin path c)
      else none := by
  unfold listdirKeep listdirPred
  by_cases h1 : (nf && ctx.isFile (pathJoin path c)) = true
  · simp [h1]
  · by_cases h2 : (nd && ctx.isDir (pathJoin path c)) = true
    · simp [h1, h2]
    · by_cases h3 : (ndot && strStartsWith c ".") = true
      · simp [h1, h2, h3]
      · simp [h1, h2, h3]

/-- Helper: `listdir` is the filtered, sorted entry list mapped to
(name, joined path) pairs. -/
theorem listdir_eq (ctx : DirContext) (path : String) (nf nd ndot : Bool) :
    listdir ctx path nf nd ndot =
      ((List.insertionSort (fun a b => strLeB a b = true) ctx.entries).filter
        (listdirPred ctx path nf nd ndot)).map
        (fun c => (c, pathJoin path c)) := by
  unfold listdir
  generalize List.insertionSort (fun a b => strLeB a b = true) ctx.entries = l
  induction l with
  | nil => rfl
  | cons a l ih =>
    rw [List.filterMap_cons, listdirKeep_eq, List.filter_cons]
    by_cases h : listdirPred ctx path nf nd ndot a = true
    · simp [h, ih]
    · simp [h, ih]

/-- C9: `listdir` returns (name, full-path) pairs sorted by name, where each
full path is the input path joined with the name; an entry passed none of
the suppression conditions: with `no_dot` its name does not start with ".",
with `no_files` it is not a file, with `no_dirs` it is not a directory. -/
theorem listdir_spec (ctx : DirContext) (path : String) (nf nd ndot : Bool) :
    List.Sorted (fun a b => strLeB a b = true)
      ((listdir ctx path nf nd ndot).map Prod.fst) ∧
    ∀ child full, (child, full) ∈ listdir ctx path nf nd ndot →
      full = pathJoin path child ∧
      (ndot && strStartsWith child ".") = false ∧
      (nf && ctx.isFile full) = false ∧
      (nd && ctx.isDir full) = false := by
  constructor
  · rw [listdir_eq, List.map_map]
    have hs : List.Sorted (fun a b => strLeB a b = true)
        (List.insertionSort (fun a b => strLeB a b = true) ctx.entries) :=
      List.sorted_insertionSort _ _
    have hf := hs.filter (listdirPred ctx path nf nd ndot)
    have hid : (Prod.fst ∘ fun c : String => (c, pathJoin path c)) =
        fun c => c := rfl
    rw [hid, List.map_id']
    exact hf
  · intro child full hm
    rw [listdir_eq] at hm
    rcases List.mem_map.mp hm with ⟨c, hc, heq⟩
    have hcc : c = child := congrArg Prod.fst heq
    have hfull : pathJoin path c = full := congrArg Prod.snd heq
    subst hcc
    subst hfull
    have hp := List.of_mem_filter hc
    simp only [listdirPred, Bool.and_eq_true, Bool.not_eq_true'] at hp
    exact ⟨rfl, hp.2.2, hp.1, hp.2.1⟩

/-- Witness for `listdir_spec`: the per-entry conjunct applied to the entry
"a" of the concrete `sampleDir` listing with `no_dot` set. -/
theorem listdir_spec_witness :
    "/x/a" = pathJoin "/x" "a" ∧
    (true && strStartsWith "a" ".") = false ∧
    (false && sampleDir.isFile "/x/a") = false ∧
    (false && sampleDir.isDir "/x/a") = false :=
  (listdir_spec sampleDir "/x" false false true).2 "a" "/x/a" (by decide)

/-- C3 counterexample: a PATCH request (whose method is not GET) with a
non-JSON body is passed through to the handler (invoked-flag true) and
yields 200 "ok", not a 400-class "error" response; and a POST with a
non-JSON body but no Content-Type header raises an uncaught AttributeError
(`None.startswith`) instead of returning the 400 "error" envelope. -/
theorem api_json_gate_cex :
    (ApiRequest.mk "PATCH" (some "text/plain") false false).method ≠ "GET" ∧
    isJsonBody (ApiRequest.mk "PATCH" (some "text/plain") false false) =
      false ∧
    apiWrapper (α := Nat) (ApiRequest.mk "PATCH" (some "text/plain")
        false false) (.ok 42) =
      .ok ({ code := 200, status := "ok", reason := none, data := some 42 },
        true) ∧
    (ApiRequest.mk "POST" none false false).method ≠ "GET" ∧
    isJsonBody (ApiRequest.mk "POST" none false false) = false ∧
    apiWrapper (α := Nat) (ApiRequest.mk "POST" none false false) (.ok 42) =
      .error (.other "AttributeError") := by decide

/-- C3 amended: for every request whose method is POST, PUT or DELETE (not:
every non-GET request) that carries a Content-Type header and whose body is
not a JSON object, the `api` decorator does not invoke the wrapped handler
and returns HTTP 400 with status "error"; in particular a POST with a
non-JSON body and some Content-Type header yields 400.  When the request
has no Content-Type header at all, `request.content_type` is None and the
decorator instead raises an uncaught AttributeError. -/
theorem api_json_gate (α : Type) (req : ApiRequest) (call : HandlerOutcome α)
    (ct : String) (hct : req.contentType = some ct)
    (h : req.method = "POST" ∨ req.method = "PUT" ∨ req.method = "DELETE")
    (hj : isJsonBody req = false) :
    apiWrapper req call =
      .ok ({ code := 400, status := "error",
             reason := some "Not in JSON format", data := none }, false) ∧
    ∀ r2 : ApiRequest, r2.contentType = none →
      apiWrapper (α := α) r2 call = .error (.other "AttributeError") := by
  constructor
  · simp only [apiWrapper, hct]
    rcases h with h | h | h <;> simp [h, hj]
  · intro r2 h2
    simp only [apiWrapper, h2]

/-- Witness for `api_json_gate`: a concrete POST with a text/plain
Content-Type header and no JSON body. -/
theorem api_json_gate_witness :
    apiWrapper (α := Nat) (ApiRequest.mk "POST" (some "text/plain")
        false false) (.ok 0) =
      .ok ({ code := 400, status := "error",
             reason := some "Not in JSON format", data := none }, false) :=
  (api_json_gate Nat (ApiRequest.mk "POST" (some "text/plain") false false)
    (.ok 0) "text/plain" rfl (Or.inl rfl) (by decide)).1

/-- C7: for a request carrying a Content-Type header, when the JSON-body
gate passes, the decorator converts exactly the whitelisted exceptions
raised by the handler into JSON "error" envelopes — an ApiException with
its own status code and reason, KeyError/TypeError/ValueError with 400 and a
reason naming the type — and any other exception propagates unchanged. -/
theorem api_exception_whitelist (α : Type) (req : ApiRequest)
    (ct r nm : String) (c : Nat) (hct : req.contentType = some ct)
    (h : ((req.method == "POST" || req.method == "PUT" ||
        req.method == "DELETE") && !isJsonBody req) = false) :
    apiWrapper (α := α) req (.raises (.apiException r c)) =
      .ok ({ code := c, status := "error", reason := some r, data := none },
        true) ∧
    apiWrapper (α := α) req (.raises .keyError) =
      .ok ({ code := 400, status := "error",
             reason := some "Bad Request: KeyError", data := none }, true) ∧
    apiWrapper (α := α) req (.raises .typeError) =
      .ok ({ code := 400, status := "error",
             reason := some "Bad Request: TypeError", data := none }, true) ∧
    apiWrapper (α := α) req (.raises .valueError) =
      .ok ({ code := 400, status := "error",
             reason := some "Bad Request: ValueError", data := none }, true) ∧
    apiWrapper (α := α) req (.raises (.other nm)) = .error (.other nm) := by
  simp only [apiWrapper, hct]
  simp [h]

/-- Witness for `api_exception_whitelist`: a concrete GET request, an
ApiException with status 404, and a RuntimeError that propagates. -/
theorem api_exception_whitelist_witness :
    apiWrapper (α := Nat) (ApiRequest.mk "GET" (some "text/plain")
        false false) (.raises (.apiException "gone" 404)) =
      .ok ({ code := 404, status := "error", reason := some "gone",
             data := none }, true) ∧
    apiWrapper (α := Nat) (ApiRequest.mk "GET" (some "text/plain")
        false false) (.raises .keyError) =
      .ok ({ code := 400, status := "error",
             reason := some "Bad Request: KeyError", data := none }, true) ∧
    apiWrapper (α := Nat) (ApiRequest.mk "GET" (some "text/plain")
        false false) (.raises .typeError) =
      .ok ({ code := 400, status := "error",
             reason := some "Bad Request: TypeError", data := none }, true) ∧
    apiWrapper (α := Nat) (ApiRequest.mk "GET" (some "text/plain")
        false false) (.raises .valueError) =
      .ok ({ code := 400, status := "error",
             reason := some "Bad Request: ValueError", data := none }, true) ∧
    apiWrapper (α := Nat) (ApiRequest.mk "GET" (some "text/plain")
        false false) (.raises (.other "RuntimeError")) =
      .error (.other "RuntimeError") :=
  api_exception_whitelist Nat
    (ApiRequest.mk "GET" (some "text/plain") false false)
    "text/plain" "gone" "RuntimeError" 404 rfl (by decide)

/-- C8: when the handler completes without raising and the JSON-body
requirement is satisfied (in particular for every GET) — which in the
program presupposes the `is_json` line evaluated, i.e. the request carries
a Content-Type header — the decorator returns HTTP 200 with the envelope
status "ok" and the handler's return value under data. -/
theorem api_success_envelope (α : Type) (req : ApiRequest) (v : α)
    (ct : String) (hct : req.contentType = some ct)
    (h : req.method = "GET" ∨ isJsonBody req = true) :
    apiWrapper req (.ok v) =
      .ok ({ code := 200, status := "ok", reason := none, data := some v },
        true) := by
  simp only [apiWrapper, hct]
  rcases h with h | h
  · rw [h]
    rfl
  · simp [h]

/-- Witness for `api_success_envelope`: a concrete successful GET. -/
theorem api_success_envelope_witness :
    apiWrapper (α := Nat) (ApiRequest.mk "GET" (some "text/plain")
        false false) (.ok 7) =
      .ok ({ code := 200, status := "ok", reason := none, data := some 7 },
        true) :=
  api_success_envelope Nat
    (ApiRequest.mk "GET" (some "text/plain") false false) 7
    "text/plain" rfl (Or.inl rfl)

/-- C2 counterexample: "/w==" is valid base64 for the single byte 0xFF,
which is not valid UTF-8, so for this Authorization header the request
loader raises UnicodeDecodeError (the `except` clause catches only
TypeError and binascii.Error) instead of returning an anonymous None. -/
theorem load_user_utf8_cex :
    load_user_from_request utf8FailEnv [] (some "Basic /w==") =
      .error AuthErr.unicodeDecodeError := by decide

/-- C2 amended: a missing Authorization header, a base64 decoding failure
(TypeError/binascii.Error, which are caught), an unknown key id, failed key
verification, and an expired key each yield an anonymous None result
without an error, and an expired key is deleted from the stored keys before
returning None; however, when the base64-decoded bytes are not valid UTF-8
the loader raises UnicodeDecodeError instead of returning None. -/
theorem load_user_cases (env : AuthEnv) (keys : List ApiKeyRec)
    (hdr api_key : String) (bytes : List Nat) :
    load_user_from_request env keys none = .ok (none, keys) ∧
    (env.b64decode (String.mk (pyReplaceOnce hdr.data "Basic ".data [])) =
        none →
      load_user_from_request env keys (some hdr) = .ok (none, keys)) ∧
    (env.b64decode (String.mk (pyReplaceOnce hdr.data "Basic ".data [])) =
        some bytes →
      env.utf8decode bytes = some api_key →
      (keys.find? (fun r => r.dbId == keyIdOf api_key) = none →
        load_user_from_request env keys (some hdr) = .ok (none, keys)) ∧
      ∀ rec, keys.find? (fun r => r.dbId == keyIdOf api_key) = some rec →
        (env.verifyKey rec.dbId api_key = false →
          load_user_from_request env keys (some hdr) = .ok (none, keys)) ∧
        (env.verifyKey rec.dbId api_key = true →
          env.hasExpired rec.dbId = true →
          load_user_from_request env keys (some hdr) =
            .ok (none, keys.eraseP (fun r => r.dbId == rec.dbId)))) := by
  refine ⟨rfl, fun hb => ?_, fun hb hu => ⟨fun hf => ?_, fun rec hf => ⟨fun hv => ?_, fun hv he => ?_⟩⟩⟩
  · simp only [load_user_from_request, hb]
  · simp only [load_user_from_request, hb, hu, hf]
  · simp only [load_user_from_request, hb, hu, hf, hv, Bool.not_false, if_true]
  · simp only [load_user_from_request, hb, hu, hf, hv, he, Bool.not_true,
      Bool.false_eq_true, if_false, if_true]

/-- Witness for `load_user_cases`: with the concrete `expiredEnv` the stored
key "k1" verifies, has expired, and is deleted before None is returned. -/
theorem load_user_cases_witness :
    load_user_from_request expiredEnv oneKey (some "Basic xxxx") =
      .ok (none, oneKey.eraseP (fun r => r.dbId == "k1")) := by
  have h := (load_user_cases expiredEnv oneKey "Basic xxxx" "k1:sec"
    [107, 49, 58, 115, 101, 99]).2.2 (by decide) (by decide)
  exact (h.2 ⟨"k1", 7⟩ (by decide)).2 (by decide) (by decide)

/-- C6: in the background task loop, an iteration whose callback raises
produces exactly an invocation, a log entry tagged with the task name, and
the sleep for the configured delay; after `n` iterations the callback has
been invoked exactly `n` times regardless of how many raised (so an
always-raising callback is still re-invoked after every delay), and the
trace after `n + 1` iterations extends the trace after `n` (the loop never
terminates). -/
theorem background_task_loop (name : String) (delay : Nat)
    (outcomes : Nat → Except String Unit) (n i : Nat) (e : String)
    (h : outcomes i = .error e) :
    iterEvents name delay (outcomes i) =
      [.invoke, .log (taskLogMsg name e), .sleep delay] ∧
    countInvokes (runTaskTrace name delay outcomes n) = n ∧
    runTaskTrace name delay outcomes (n + 1) =
      runTaskTrace name delay outcomes n ++
        iterEvents name delay (outcomes n) := by
  refine ⟨by rw [h, iterEvents], ?_, rfl⟩
  induction n with
  | zero => rfl
  | succ k ih =>
    have hstep : runTaskTrace name delay outcomes (k + 1) =
        runTaskTrace name delay outcomes k ++
          iterEvents name delay (outcomes k) := rfl
    rw [hstep]
    unfold countInvokes at ih ⊢
    rw [List.countP_append, ih]
    have hone : (iterEvents name delay (outcomes k)).countP
        (fun e => match e with | .invoke => true | _ => false) = 1 := by
      cases outcomes k <;> rfl
    rw [hone]

/-- Witness for `background_task_loop`: a callback that always raises
"boom", observed over three iterations. -/
theorem background_task_loop_witness :
    iterEvents "t" 5 ((fun _ => Except.error "boom") 1) =
      [.invoke, .log (taskLogMsg "t" "boom"), .sleep 5] ∧
    countInvokes (runTaskTrace "t" 5 (fun _ => Except.error "boom") 3) = 3 ∧
    runTaskTrace "t" 5 (fun _ => Except.error "boom") (3 + 1) =
      runTaskTrace "t" 5 (fun _ => Except.error "boom") 3 ++
        iterEvents "t" 5 ((fun _ => Except.error "boom") 3) :=
  background_task_loop "t" 5 (fun _ => Except.error "boom") 3 1 "boom" rfl

end Puffotter
